import Mathlib

/-!
Verification of the index persistence / factory / tuning core of
src/cpp/src/wrapper/knowhere/vec_index.cpp (namespace zilliz::milvus::engine).

The embedding follows the source file:
* `IndexType` mirrors the IndexType enum dispatched on by the source
  (enumerator order as used by the factory switch; INVALID first).
* `Config` mirrors the string-keyed configuration map, restricted to the
  keys this file touches (the source never reads or writes any other key).
* `AutoGenParams`, `ParameterValidation`, `ConvertToCpuIndexType`,
  `ConvertToGpuIndexType`, `GetVecIndexFactory`, `write_index`, `read_index`
  are translated statement by statement from the source.
* The C++ float/double expressions in AutoGenParams are modelled by exact
  rational arithmetic with C-style truncation (`cppIntCast`) and rounding
  (`cppRound`); every constant involved (1000000, 16384, 8192, 128, the
  threshold 1000000/16384 + 1 = 15881/256) is exactly representable, so on
  the row counts and dimensions appearing in the claims the rational model
  agrees bit for bit with the machine arithmetic.
-/

/-- The IndexType enum of the wrapper. Enumerators are the eleven families the
factory switch names plus INVALID (the initial value of the reader's tag and
the family falling through to the factory's default branch). -/
inductive IndexType where
  | INVALID
  | FAISS_IDMAP
  | FAISS_IVFFLAT_CPU
  | FAISS_IVFFLAT_GPU
  | FAISS_IVFFLAT_MIX
  | FAISS_IVFPQ_CPU
  | FAISS_IVFPQ_GPU
  | SPTAG_KDT_RNT_CPU
  | FAISS_IVFSQ8_MIX
  | FAISS_IVFSQ8_CPU
  | FAISS_IVFSQ8_GPU
  | NSG_MIX
deriving DecidableEq, Repr

/-- Modelled from the spec: the configuration is a string-keyed map; the core
only ever touches the keys listed in the spec's data model, so it is embedded
as one optional field per key (absent key = `none`). Values of the keys the
source reads with `.as<int>()` or assigns integers to are `Int`;
`metric_type` is a string. Unrecognized keys are never touched by the source,
so they are outside the embedding. -/
structure Config where
  nlist : Option Int := none
  nprobe : Option Int := none
  nbits : Option Int := none
  gpu_id : Option Int := none
  metric_type : Option String := none
  dim : Option Int := none
  knng : Option Int := none
  search_length : Option Int := none
  out_degree : Option Int := none
  candidate_pool_size : Option Int := none
deriving DecidableEq, Repr

/-- The C++ cast `int(x)` on a floating value: truncation toward zero. -/
def cppIntCast (q : ℚ) : ℤ :=
  if 0 ≤ q then ⌊q⌋ else -⌊-q⌋

/-- The C `round` function: nearest integer, halves rounded away from zero. -/
def cppRound (q : ℚ) : ℤ :=
  if 0 ≤ q then ⌊q + 1/2⌋ else -⌊-q + 1/2⌋

/-- `static constexpr float TYPICAL_COUNT = 1000000.0` (exact in float). -/
def TYPICAL_COUNT : ℚ := 1000000

/-- The part of AutoGenParams before the family switch: the baseline nlist
rule, and the gpu_id / metric_type fill-if-absent defaults.
Source lines 231-241:
`auto nlist = cfg.get_with_default("nlist", 0);`
`if (size <= TYPICAL_COUNT / 16384 + 1) cfg["nlist"] = 1;`
`else if (int(size / TYPICAL_COUNT) * nlist == 0)`
`  cfg["nlist"] = int(size / TYPICAL_COUNT * 16384);`
then the two `contains` guards. -/
def autoGenBase (size : Int) (cfg : Config) : Config :=
  let nlist : Int := cfg.nlist.getD 0
  let c1 : Config :=
    if (size : ℚ) ≤ TYPICAL_COUNT / 16384 + 1 then
      { cfg with nlist := some 1 }
    else if cppIntCast ((size : ℚ) / TYPICAL_COUNT) * nlist = 0 then
      { cfg with nlist := some (cppIntCast ((size : ℚ) / TYPICAL_COUNT * 16384)) }
    else cfg
  let c2 : Config := if c1.gpu_id.isSome then c1 else { c1 with gpu_id := some 0 }
  if c2.metric_type.isSome then c2 else { c2 with metric_type := some "L2" }

/-- The statement `if (!cfg.contains("nbits")) { cfg["nbits"] = int(8); }`
(source line 245), as a function of the value assigned. -/
def fillNbits (v : Int) (cfg : Config) : Config :=
  if cfg.nbits.isSome then cfg else { cfg with nbits := some v }

/-- The statement `if (!cfg.contains("nprobe")) { cfg["nprobe"] = ...; }`
(source line 252), as a function of the value assigned. -/
def fillNprobe (v : Int) (cfg : Config) : Config :=
  if cfg.nprobe.isSome then cfg else { cfg with nprobe := some v }

/-- The statement `if (!cfg.contains("knng")) { cfg["knng"] = ...; }`
(source line 253). -/
def fillKnng (v : Int) (cfg : Config) : Config :=
  if cfg.knng.isSome then cfg else { cfg with knng := some v }

/-- The statement filling `search_length` when absent (source line 254). -/
def fillSearchLength (v : Int) (cfg : Config) : Config :=
  if cfg.search_length.isSome then cfg else { cfg with search_length := some v }

/-- The statement filling `out_degree` when absent (source line 255). -/
def fillOutDegree (v : Int) (cfg : Config) : Config :=
  if cfg.out_degree.isSome then cfg else { cfg with out_degree := some v }

/-- The statement filling `candidate_pool_size` when absent (source
line 256). -/
def fillCandidatePoolSize (v : Int) (cfg : Config) : Config :=
  if cfg.candidate_pool_size.isSome then cfg else
    { cfg with candidate_pool_size := some v }

/-- The NSG_MIX case of AutoGenParams' switch, after `dim` has been read.
Source lines 249-256: scale factor from dim, capped at 4; unconditional
nlist recomputation; fill-if-absent graph parameters, applied in source
order (innermost first). -/
def autoGenNSG (size : Int) (dim : Int) (cfg : Config) : Config :=
  let sf0 : Int := cppRound ((dim : ℚ) / 128)
  let sf : Int := if sf0 ≥ 4 then 4 else sf0
  fillCandidatePoolSize (200 + 100 * sf)
    (fillOutDegree (50 + 5 * sf)
      (fillSearchLength (40 + 5 * sf)
        (fillKnng (100 + 100 * sf)
          (fillNprobe (6 + 10 * sf)
            { cfg with nlist := some (cppIntCast ((size : ℚ) / 1000000 * 8192)) }))))

/-- AutoGenParams (source lines 230-261). The NSG_MIX branch reads
`cfg["dim"].as<int>()` with no existence check and no default; on a
configuration without `dim` that read has no defined integer result, which the
embedding makes explicit by returning `none` there and `some` everywhere
else. -/
def AutoGenParams (type : IndexType) (size : Int) (cfg : Config) : Option Config :=
  let base := autoGenBase size cfg
  match type with
  | .FAISS_IVFSQ8_MIX => some (fillNbits 8 base)
  | .NSG_MIX =>
    match base.dim with
    | none => none
    | some dim => some (autoGenNSG size dim base)
  | _ => some base

/-- The #if CUDA_VERSION > 9000 value of GPU_MAX_NRPOBE (name as in source). -/
def GPU_MAX_NRPOBE_CUDA9PLUS : Int := 2048

/-- The fallback value of GPU_MAX_NRPOBE for older toolkits. -/
def GPU_MAX_NRPOBE_LEGACY : Int := 1024

/-- ParameterValidation (source lines 269-288), parameterized by the
build-time ceiling GPU_MAX_NRPOBE (2048 when CUDA_VERSION > 9000, else 1024).
For the three GPU clustered families: when `nprobe` is present and non-zero
and exceeds the ceiling it is clamped to the ceiling; every other
configuration, and every other family, passes through unchanged. -/
def ParameterValidation (maxNprobe : Int) (type : IndexType) (cfg : Config) : Config :=
  match type with
  | .FAISS_IVFSQ8_GPU | .FAISS_IVFFLAT_GPU | .FAISS_IVFPQ_GPU =>
    if cfg.nprobe.getD 0 ≠ 0 then
      if cfg.nprobe.getD 0 > maxNprobe then { cfg with nprobe := some maxNprobe } else cfg
    else cfg
  | _ => cfg

/-- ConvertToCpuIndexType (source lines 290-305). -/
def ConvertToCpuIndexType : IndexType → IndexType
  | .FAISS_IVFFLAT_GPU | .FAISS_IVFFLAT_MIX => .FAISS_IVFFLAT_CPU
  | .FAISS_IVFSQ8_GPU | .FAISS_IVFSQ8_MIX => .FAISS_IVFSQ8_CPU
  | t => t

/-- ConvertToGpuIndexType (source lines 307-321). -/
def ConvertToGpuIndexType : IndexType → IndexType
  | .FAISS_IVFFLAT_MIX | .FAISS_IVFFLAT_CPU => .FAISS_IVFFLAT_GPU
  | .FAISS_IVFSQ8_MIX | .FAISS_IVFSQ8_CPU => .FAISS_IVFSQ8_GPU
  | t => t

/-- The families the two device mappers translate: the flat-cluster (IVFFLAT)
group and the scalar-quantized (IVFSQ8) group. -/
def IndexType.inDeviceMappedGroup : IndexType → Bool
  | .FAISS_IVFFLAT_CPU | .FAISS_IVFFLAT_GPU | .FAISS_IVFFLAT_MIX => true
  | .FAISS_IVFSQ8_CPU | .FAISS_IVFSQ8_GPU | .FAISS_IVFSQ8_MIX => true
  | _ => false

/-- The concrete knowhere backends the factory instantiates; GPU-resident
backends carry the device ordinal they were constructed with. -/
inductive KnowhereBackend where
  | IDMAP
  | IVF
  | GPUIVF (device : Int)
  | IVFPQ
  | GPUIVFPQ (device : Int)
  | CPUKDTRNG
  | GPUIVFSQ (device : Int)
  | IVFSQ
  | NSG (device : Int)
deriving DecidableEq, Repr

/-- The wrapper object GetVecIndexFactory returns: BFIndex for the flat
family, IVFMixIndex for the two wrapped mix families, VecIndexImpl for the
rest, or a null pointer for the default branch. -/
inductive VecIndexVariant where
  | BFIndex (backend : KnowhereBackend)
  | IVFMixIndex (backend : KnowhereBackend) (type : IndexType)
  | VecIndexImpl (backend : KnowhereBackend) (type : IndexType)
  | nullPointer
deriving DecidableEq, Repr

/-- GetVecIndexFactory (source lines 88-142).
`auto gpu_device = cfg.get_with_default("gpu_id", 0);` then the switch.
Note the FAISS_IVFFLAT_MIX case constructs `GPUIVF(0)` with a literal 0
rather than gpu_device. -/
def GetVecIndexFactory (type : IndexType) (cfg : Config) : VecIndexVariant :=
  let gpu_device : Int := cfg.gpu_id.getD 0
  match type with
  | .FAISS_IDMAP => .BFIndex .IDMAP
  | .FAISS_IVFFLAT_CPU => .VecIndexImpl .IVF .FAISS_IVFFLAT_CPU
  | .FAISS_IVFFLAT_GPU => .VecIndexImpl (.GPUIVF gpu_device) .FAISS_IVFFLAT_GPU
  | .FAISS_IVFFLAT_MIX => .IVFMixIndex (.GPUIVF 0) .FAISS_IVFFLAT_MIX
  | .FAISS_IVFPQ_CPU => .VecIndexImpl .IVFPQ .FAISS_IVFPQ_CPU
  | .FAISS_IVFPQ_GPU => .VecIndexImpl (.GPUIVFPQ gpu_device) .FAISS_IVFPQ_GPU
  | .SPTAG_KDT_RNT_CPU => .VecIndexImpl .CPUKDTRNG .SPTAG_KDT_RNT_CPU
  | .FAISS_IVFSQ8_MIX => .IVFMixIndex (.GPUIVFSQ gpu_device) .FAISS_IVFSQ8_MIX
  | .FAISS_IVFSQ8_CPU => .VecIndexImpl .IVFSQ .FAISS_IVFSQ8_CPU
  | .FAISS_IVFSQ8_GPU => .VecIndexImpl (.GPUIVFSQ gpu_device) .FAISS_IVFSQ8_GPU
  | .NSG_MIX => .VecIndexImpl (.NSG gpu_device) .NSG_MIX
  | .INVALID => .nullPointer

/-- The device ordinal a factory result's backend was constructed with, when
its constructor takes one. -/
def deviceOrdinal (v : VecIndexVariant) : Option Int :=
  match v with
  | .BFIndex b | .IVFMixIndex b _ | .VecIndexImpl b _ =>
    match b with
    | .GPUIVF d | .GPUIVFPQ d | .GPUIVFSQ d | .NSG d => some d
    | _ => none
  | .nullPointer => none

/-- The numeric value of each IndexType enumerator (consecutive from
INVALID = 0, the order of the declaration); this is the 4-byte tag
write_index stores and read_index reads back. -/
def IndexType.code : IndexType → Nat
  | .INVALID => 0
  | .FAISS_IDMAP => 1
  | .FAISS_IVFFLAT_CPU => 2
  | .FAISS_IVFFLAT_GPU => 3
  | .FAISS_IVFFLAT_MIX => 4
  | .FAISS_IVFPQ_CPU => 5
  | .FAISS_IVFPQ_GPU => 6
  | .SPTAG_KDT_RNT_CPU => 7
  | .FAISS_IVFSQ8_MIX => 8
  | .FAISS_IVFSQ8_CPU => 9
  | .FAISS_IVFSQ8_GPU => 10
  | .NSG_MIX => 11

/-- The enumerator with a given numeric value, if any: what a 4-byte tag read
from a file denotes. A raw value with no enumerator still switches into the
factory's default branch, exactly like INVALID does. -/
def IndexType.ofCode (n : Nat) : Option IndexType :=
  match n with
  | 0 => some .INVALID
  | 1 => some .FAISS_IDMAP
  | 2 => some .FAISS_IVFFLAT_CPU
  | 3 => some .FAISS_IVFFLAT_GPU
  | 4 => some .FAISS_IVFFLAT_MIX
  | 5 => some .FAISS_IVFPQ_CPU
  | 6 => some .FAISS_IVFPQ_GPU
  | 7 => some .SPTAG_KDT_RNT_CPU
  | 8 => some .FAISS_IVFSQ8_MIX
  | 9 => some .FAISS_IVFSQ8_CPU
  | 10 => some .FAISS_IVFSQ8_GPU
  | 11 => some .NSG_MIX
  | _ => none

/-- Little-endian byte encoding of `n` in `w` bytes (bytes as `Nat < 256`);
how the writer lays down the 4-byte IndexType tag, and the 8-byte size_t /
int64_t lengths. -/
def toLEBytes : Nat → Nat → List Nat
  | 0, _ => []
  | w + 1, n => n % 256 :: toLEBytes w (n / 256)

/-- Little-endian byte decoding: what a fixed-width read from the file
yields. -/
def fromLEBytes : List Nat → Nat
  | [] => 0
  | b :: bs => b + 256 * fromLEBytes bs

/-- Modelled from the spec: a BinarySet entry, an immutable named byte
buffer. The knowhere BinarySet type itself lives outside this file; per the
spec it is an ordered sequence of named segments with unique names, and its
recorded length always equals the byte count of the data. -/
structure BinarySegment where
  name : List Nat
  data : List Nat
deriving DecidableEq, Repr

/-- Modelled from the spec: a BinarySet is the ordered sequence of segments a
backend's Serialize produced; write_index iterates it in order. -/
abbrev BinarySet := List BinarySegment

/-- Modelled from the spec: an index handle binds a concrete backend to its
IndexFamily tag; the backend's Serialize returns its BinarySet and Load
replaces it, so the handle is embedded as the tag plus that BinarySet. -/
structure VecIndexHandle where
  type : IndexType
  store : BinarySet
deriving DecidableEq, Repr

/-- The handle's Serialize capability: the backend's persisted state. -/
def VecIndexHandle.Serialize (h : VecIndexHandle) : BinarySet := h.store

/-- The handle's GetType capability. -/
def VecIndexHandle.GetType (h : VecIndexHandle) : IndexType := h.type

/-- One iteration of write_index's segment loop (source lines 201-211):
8-byte name length, name bytes, 8-byte data length, data bytes. -/
def encodeSegment (s : BinarySegment) : List Nat :=
  toLEBytes 8 s.name.length ++ s.name ++ toLEBytes 8 s.data.length ++ s.data

/-- The byte stream write_index's success path produces (source lines
196-211): the 4-byte IndexType tag, then each segment in BinarySet order. -/
def writeIndexBytes (h : VecIndexHandle) : List Nat :=
  toLEBytes 4 h.GetType.code ++ (h.Serialize.map encodeSegment).flatten

/-- Result of read_index's segment loop. `unspecifiedRead` is the branch
where a declared length would read past end-of-file: the fstream read fails
or partially fills an uninitialized buffer and the loop continues on
unspecified data (the source checks nothing), so from there on the result is
not determined by the file contents. -/
inductive ParseResult where
  | ok (segs : BinarySet)
  | unspecifiedRead
  | fuelExhausted
deriving DecidableEq, Repr

/-- One iteration of read_index's segment loop (source lines 166-188),
reading sequentially from the unread suffix `rest` of the file; the C++
cursor `rp` tracks exactly this suffix because every seekg target equals
the position already reached. `recurse` continues the loop on what follows
the segment. -/
def parseStep (rest : List Nat) (recurse : List Nat → ParseResult) : ParseResult :=
  if rest.length < 8 then .unspecifiedRead
  else
    let metaLength := fromLEBytes (rest.take 8)
    let r1 := rest.drop 8
    if r1.length < metaLength then .unspecifiedRead
    else
      let meta := r1.take metaLength
      let r2 := r1.drop metaLength
      if r2.length < 8 then .unspecifiedRead
      else
        let binLength := fromLEBytes (r2.take 8)
        let r3 := r2.drop 8
        if r3.length < binLength then .unspecifiedRead
        else
          let bin := r3.take binLength
          let r4 := r3.drop binLength
          match recurse r4 with
          | .ok segs => .ok (⟨meta, bin⟩ :: segs)
          | e => e

/-- read_index's segment loop (source lines 165-189): iterate parseStep
until the cursor reaches the end of the file. `fuel` only forces
termination: each iteration consumes at least 16 bytes, so any `fuel` at
least the file length never exhausts. -/
def parseSegments : Nat → List Nat → ParseResult
  | _, [] => .ok []
  | 0, _ :: _ => .fuelExhausted
  | fuel + 1, rest => parseStep rest (parseSegments fuel)

/-- What read_index can do. `nullResult` is the `return nullptr` for an
empty (or unreadable) file; `handle` is the populated index handle;
`unspecified` covers the unchecked failed reads (see ParseResult); and
`nullDereference` is LoadVecIndex calling `index->Load` on the null pointer
the factory returns for an unknown or INVALID tag - the source tests
nothing there, so no error value exists for that case. -/
inductive ReadOutcome where
  | nullResult
  | handle (h : VecIndexHandle)
  | unspecified
  | nullDereference (segs : BinarySet)
deriving DecidableEq, Repr

/-- LoadVecIndex (source lines 144-148): construct via the factory with a
default configuration, then Load the BinarySet into it. The factory's null
pointer is dereferenced, not checked. -/
def LoadVecIndex (tag : Option IndexType) (segs : BinarySet) : ReadOutcome :=
  match tag with
  | some ty =>
    if GetVecIndexFactory ty {} = .nullPointer then .nullDereference segs
    else .handle ⟨ty, segs⟩
  | none => .nullDereference segs

/-- read_index (source lines 150-192): nullptr for length <= 0; otherwise
read the 4-byte tag, run the segment loop, and LoadVecIndex the result.
A file shorter than the tag leaves the tag variable partially written -
unspecified. The loop's fuel is the file length, which the parseSegments
doc shows is never exhausted. -/
def read_index (file : List Nat) : ReadOutcome :=
  if file.length = 0 then .nullResult
  else if file.length < 4 then .unspecified
  else
    let rawTag := fromLEBytes (file.take 4)
    match parseSegments file.length (file.drop 4) with
    | .ok segs => LoadVecIndex (IndexType.ofCode rawTag) segs
    | _ => .unspecified

/-- The knowhere ErrorCode values write_index returns (from the source's
return statements). KNOWHERE_ERROR is the generic serialization failure the
spec calls SerializationError. -/
inductive ErrorCode where
  | KNOWHERE_SUCCESS
  | KNOWHERE_ERROR
  | KNOWHERE_NO_SPACE
  | KNOWHERE_UNEXPECTED_ERROR
deriving DecidableEq, Repr

/-- What happens inside write_index's try block - `Serialize`, `GetType` and
the file writes are calls into the backend and the filesystem, so the
embedding takes the outcome as input: no exception, a
knowhere::KnowhereException with message `msg`, or a generic std::exception
with message `msg`. -/
inductive WriteAttempt where
  | completed
  | knowhereExc (msg : List Char)
  | stdExc (msg : List Char)
deriving DecidableEq, Repr

/-- The space-exhaustion indicator write_index greps the exception message
for (source line 218). -/
def noSpaceIndicator : List Char := "No space left on device".toList

/-- write_index's control flow (source lines 194-226): the catch clauses map
each attempt outcome to an ErrorCode; nothing else escapes. -/
def write_index (attempt : WriteAttempt) : ErrorCode :=
  match attempt with
  | .completed => .KNOWHERE_SUCCESS
  | .knowhereExc _ => .KNOWHERE_UNEXPECTED_ERROR
  | .stdExc msg =>
    if noSpaceIndicator <:+: msg then .KNOWHERE_NO_SPACE else .KNOWHERE_ERROR

example : AutoGenParams .NSG_MIX 500 { dim := some 512 } =
    some { dim := some 512, nlist := some 4, gpu_id := some 0, metric_type := some "L2",
           nprobe := some 46, knng := some 500, search_length := some 60,
           out_degree := some 70, candidate_pool_size := some 600 } := by
  norm_num [AutoGenParams, autoGenBase, autoGenNSG, fillNprobe, fillKnng, fillSearchLength,
    fillOutDegree, fillCandidatePoolSize, cppIntCast, cppRound, TYPICAL_COUNT]

example : (AutoGenParams .FAISS_IVFFLAT_CPU 1000 { nlist := some 5 }).map Config.nlist
    = some (some 16) := by
  norm_num [AutoGenParams, autoGenBase, cppIntCast, TYPICAL_COUNT]

example : (AutoGenParams .NSG_MIX 100 { dim := some 128 }).map Config.nlist
    = some (some 0) := by
  norm_num [AutoGenParams, autoGenBase, autoGenNSG, fillNbits, fillNprobe, fillKnng, fillSearchLength, fillOutDegree, fillCandidatePoolSize, cppIntCast, cppRound, TYPICAL_COUNT]

theorem toLEBytes_length (w : Nat) : ∀ n : Nat, (toLEBytes w n).length = w := by
  induction w with
  | zero => intro n; rfl
  | succ w ih => intro n; simp [toLEBytes, ih]

theorem fromLEBytes_toLEBytes (w : Nat) : ∀ n : Nat, n < 256 ^ w →
    fromLEBytes (toLEBytes w n) = n := by
  induction w with
  | zero =>
    intro n h
    simp only [Nat.pow_zero, Nat.lt_one_iff] at h
    simp [toLEBytes, fromLEBytes, h]
  | succ w ih =>
    intro n h
    have hdiv : n / 256 < 256 ^ w := by
      rw [Nat.pow_succ, Nat.mul_comm] at h
      exact Nat.div_lt_of_lt_mul h
    simp only [toLEBytes, fromLEBytes, ih (n / 256) hdiv]
    omega

theorem take_of_append_length {l1 l2 : List Nat} {n : Nat} (h : l1.length = n) :
    (l1 ++ l2).take n = l1 := by
  subst h
  induction l1 with
  | nil => rfl
  | cons a t ih => simp [ih]

theorem drop_of_append_length {l1 l2 : List Nat} {n : Nat} (h : l1.length = n) :
    (l1 ++ l2).drop n = l2 := by
  subst h
  induction l1 with
  | nil => rfl
  | cons a t ih => simp [ih]

theorem encodeSegment_length (s : BinarySegment) :
    (encodeSegment s).length = 16 + s.name.length + s.data.length := by
  simp [encodeSegment, toLEBytes_length]
  omega

theorem parseSegments_step (f : Nat) (rest : List Nat) (h : rest ≠ []) :
    parseSegments (f + 1) rest = parseStep rest (parseSegments f) := by
  cases rest with
  | nil => exact absurd rfl h
  | cons b bs => rfl

theorem parseSegments_encode (segs : BinarySet) : ∀ fuel : Nat,
    (∀ s ∈ segs, s.name.length < 2 ^ 64 ∧ s.data.length < 2 ^ 63) →
    ((segs.map encodeSegment).flatten).length ≤ fuel →
    parseSegments fuel ((segs.map encodeSegment).flatten) = .ok segs := by
  induction segs with
  | nil => intro fuel _ _; cases fuel <;> rfl
  | cons s rest ih =>
    intro fuel hbound hfuel
    obtain ⟨hname, hdata⟩ := hbound s (List.mem_cons_self s rest)
    have hname' : s.name.length < 256 ^ 8 := by norm_num; omega
    have hdata' : s.data.length < 256 ^ 8 := by
      have h63 : (2:Nat) ^ 63 < 256 ^ 8 := by norm_num
      omega
    have hflat : ((s :: rest).map encodeSegment).flatten
        = encodeSegment s ++ (rest.map encodeSegment).flatten := by
      simp
    have hElen : (encodeSegment s).length = 16 + s.name.length + s.data.length :=
      encodeSegment_length s
    rw [hflat] at hfuel ⊢
    obtain ⟨f, rfl⟩ : ∃ f, fuel = f + 1 := by
      refine ⟨fuel - 1, ?_⟩
      simp only [List.length_append, hElen] at hfuel
      omega
    have hne : encodeSegment s ++ (rest.map encodeSegment).flatten ≠ [] := by
      intro heq
      have := congrArg List.length heq
      simp [hElen] at this
    rw [parseSegments_step f _ hne]
    simp only [encodeSegment, List.append_assoc]
    have hA := toLEBytes_length 8 s.name.length
    have hC := toLEBytes_length 8 s.data.length
    simp only [parseStep]
    rw [@take_of_append_length (toLEBytes 8 s.name.length) _ 8 hA,
        @drop_of_append_length (toLEBytes 8 s.name.length) _ 8 hA,
        fromLEBytes_toLEBytes 8 s.name.length hname',
        @take_of_append_length s.name (toLEBytes 8 s.data.length ++
          (s.data ++ (rest.map encodeSegment).flatten)) s.name.length rfl,
        @drop_of_append_length s.name (toLEBytes 8 s.data.length ++
          (s.data ++ (rest.map encodeSegment).flatten)) s.name.length rfl,
        @take_of_append_length (toLEBytes 8 s.data.length) _ 8 hC,
        @drop_of_append_length (toLEBytes 8 s.data.length) _ 8 hC,
        fromLEBytes_toLEBytes 8 s.data.length hdata',
        @take_of_append_length s.data ((rest.map encodeSegment).flatten)
          s.data.length rfl,
        @drop_of_append_length s.data ((rest.map encodeSegment).flatten)
          s.data.length rfl]
    rw [if_neg (by simp [List.length_append, hA]), if_neg (by simp [List.length_append]),
        if_neg (by simp [List.length_append, hC]), if_neg (by simp [List.length_append])]
    have htail : ((rest.map encodeSegment).flatten).length ≤ f := by
      simp only [List.length_append, hElen] at hfuel
      omega
    have hrest : ∀ s2 ∈ rest, s2.name.length < 2 ^ 64 ∧ s2.data.length < 2 ^ 63 :=
      fun s2 hs2 => hbound s2 (List.mem_cons_of_mem s hs2)
    rw [ih f hrest htail]

theorem IndexType.ofCode_code (t : IndexType) : IndexType.ofCode t.code = some t := by
  cases t <;> rfl

theorem IndexType.code_lt (t : IndexType) : t.code < 256 ^ 4 := by
  cases t <;> norm_num [IndexType.code]

theorem GetVecIndexFactory_eq_nullPointer (t : IndexType) (cfg : Config) :
    GetVecIndexFactory t cfg = .nullPointer ↔ t = .INVALID := by
  cases t <;> simp [GetVecIndexFactory]

theorem LoadVecIndex_ne_nullResult (tag : Option IndexType) (segs : BinarySet) :
    LoadVecIndex tag segs ≠ .nullResult := by
  rcases tag with _ | ty
  · simp [LoadVecIndex]
  · simp only [LoadVecIndex]
    split <;> simp

theorem read_index_writeIndexBytes (h : VecIndexHandle)
    (hty : h.type ≠ IndexType.INVALID)
    (hbound : ∀ s ∈ h.store, s.name.length < 2 ^ 64 ∧ s.data.length < 2 ^ 63) :
    read_index (writeIndexBytes h) = .handle h := by
  have h4 := toLEBytes_length 4 h.type.code
  have hfile : writeIndexBytes h
      = toLEBytes 4 h.type.code ++ (h.store.map encodeSegment).flatten := rfl
  simp only [read_index, hfile]
  rw [if_neg (by simp [List.length_append, h4]),
      if_neg (by simp [List.length_append, h4]),
      @take_of_append_length (toLEBytes 4 h.type.code) _ 4 h4,
      @drop_of_append_length (toLEBytes 4 h.type.code) _ 4 h4,
      fromLEBytes_toLEBytes 4 h.type.code (IndexType.code_lt h.type),
      parseSegments_encode h.store _ hbound (by simp [List.length_append, h4]),
      IndexType.ofCode_code]
  simp only [LoadVecIndex]
  rw [if_neg (fun heq => hty ((GetVecIndexFactory_eq_nullPointer h.type {}).mp heq))]

theorem read_index_eq_nullResult (file : List Nat) :
    read_index file = .nullResult ↔ file = [] := by
  constructor
  · intro h
    by_contra hne
    have hlen : file.length ≠ 0 := fun h0 => hne (List.length_eq_zero.mp h0)
    simp only [read_index] at h
    rw [if_neg hlen] at h
    by_cases h4 : file.length < 4
    · rw [if_pos h4] at h
      exact absurd h (by simp)
    · rw [if_neg h4] at h
      cases hp : parseSegments file.length (file.drop 4) with
      | ok segs =>
        rw [hp] at h
        exact LoadVecIndex_ne_nullResult _ _ h
      | unspecifiedRead => rw [hp] at h; exact absurd h (by simp)
      | fuelExhausted => rw [hp] at h; exact absurd h (by simp)
  · intro h
    subst h
    rfl

theorem autoGenBase_dim (size : Int) (cfg : Config) :
    (autoGenBase size cfg).dim = cfg.dim := by
  simp only [autoGenBase]
  split_ifs <;> rfl

theorem autoGenBase_nprobe (size : Int) (cfg : Config) :
    (autoGenBase size cfg).nprobe = cfg.nprobe := by
  simp only [autoGenBase]
  split_ifs <;> rfl

theorem autoGenBase_nbits (size : Int) (cfg : Config) :
    (autoGenBase size cfg).nbits = cfg.nbits := by
  simp only [autoGenBase]
  split_ifs <;> rfl

theorem autoGenBase_knng (size : Int) (cfg : Config) :
    (autoGenBase size cfg).knng = cfg.knng := by
  simp only [autoGenBase]
  split_ifs <;> rfl

theorem autoGenBase_search_length (size : Int) (cfg : Config) :
    (autoGenBase size cfg).search_length = cfg.search_length := by
  simp only [autoGenBase]
  split_ifs <;> rfl

theorem autoGenBase_out_degree (size : Int) (cfg : Config) :
    (autoGenBase size cfg).out_degree = cfg.out_degree := by
  simp only [autoGenBase]
  split_ifs <;> rfl

theorem autoGenBase_candidate_pool_size (size : Int) (cfg : Config) :
    (autoGenBase size cfg).candidate_pool_size = cfg.candidate_pool_size := by
  simp only [autoGenBase]
  split_ifs <;> rfl

theorem autoGenBase_gpu_id (size : Int) (cfg : Config) (v : Int) (h : cfg.gpu_id = some v) :
    (autoGenBase size cfg).gpu_id = some v := by
  simp only [autoGenBase]
  split_ifs <;> simp_all

theorem autoGenBase_metric_type (size : Int) (cfg : Config) (v : String)
    (h : cfg.metric_type = some v) :
    (autoGenBase size cfg).metric_type = some v := by
  simp only [autoGenBase]
  split_ifs <;> simp_all

theorem autoGenBase_nlist_kept (size : Int) (cfg : Config) (v : Int)
    (hv : cfg.nlist = some v)
    (h1 : ¬((size : ℚ) ≤ TYPICAL_COUNT / 16384 + 1))
    (h2 : cppIntCast ((size : ℚ) / TYPICAL_COUNT) * v ≠ 0) :
    (autoGenBase size cfg).nlist = some v := by
  simp only [autoGenBase, hv, Option.getD_some]
  rw [if_neg h1, if_neg h2]
  split_ifs <;> simp_all

theorem fillNbits_eta (v : Int) (cfg : Config) :
    fillNbits v cfg = { cfg with nbits := some (cfg.nbits.getD v) } := by
  obtain ⟨nl, np, nb, gp, mt, dm, kn, sl, od, cp⟩ := cfg
  cases nb <;> simp [fillNbits]

theorem fillNprobe_eta (v : Int) (cfg : Config) :
    fillNprobe v cfg = { cfg with nprobe := some (cfg.nprobe.getD v) } := by
  obtain ⟨nl, np, nb, gp, mt, dm, kn, sl, od, cp⟩ := cfg
  cases np <;> simp [fillNprobe]

theorem fillKnng_eta (v : Int) (cfg : Config) :
    fillKnng v cfg = { cfg with knng := some (cfg.knng.getD v) } := by
  obtain ⟨nl, np, nb, gp, mt, dm, kn, sl, od, cp⟩ := cfg
  cases kn <;> simp [fillKnng]

theorem fillSearchLength_eta (v : Int) (cfg : Config) :
    fillSearchLength v cfg = { cfg with search_length := some (cfg.search_length.getD v) } := by
  obtain ⟨nl, np, nb, gp, mt, dm, kn, sl, od, cp⟩ := cfg
  cases sl <;> simp [fillSearchLength]

theorem fillOutDegree_eta (v : Int) (cfg : Config) :
    fillOutDegree v cfg = { cfg with out_degree := some (cfg.out_degree.getD v) } := by
  obtain ⟨nl, np, nb, gp, mt, dm, kn, sl, od, cp⟩ := cfg
  cases od <;> simp [fillOutDegree]

theorem fillCandidatePoolSize_eta (v : Int) (cfg : Config) :
    fillCandidatePoolSize v cfg
      = { cfg with candidate_pool_size := some (cfg.candidate_pool_size.getD v) } := by
  obtain ⟨nl, np, nb, gp, mt, dm, kn, sl, od, cp⟩ := cfg
  cases cp <;> simp [fillCandidatePoolSize]

theorem autoGenNSG_dim (size dim : Int) (cfg : Config) :
    (autoGenNSG size dim cfg).dim = cfg.dim := by
  simp [autoGenNSG, fillNprobe_eta, fillKnng_eta, fillSearchLength_eta, fillOutDegree_eta, fillCandidatePoolSize_eta]

theorem autoGenNSG_nbits (size dim : Int) (cfg : Config) :
    (autoGenNSG size dim cfg).nbits = cfg.nbits := by
  simp [autoGenNSG, fillNprobe_eta, fillKnng_eta, fillSearchLength_eta, fillOutDegree_eta, fillCandidatePoolSize_eta]

theorem autoGenNSG_gpu_id (size dim : Int) (cfg : Config) :
    (autoGenNSG size dim cfg).gpu_id = cfg.gpu_id := by
  simp [autoGenNSG, fillNprobe_eta, fillKnng_eta, fillSearchLength_eta, fillOutDegree_eta, fillCandidatePoolSize_eta]

theorem autoGenNSG_metric_type (size dim : Int) (cfg : Config) :
    (autoGenNSG size dim cfg).metric_type = cfg.metric_type := by
  simp [autoGenNSG, fillNprobe_eta, fillKnng_eta, fillSearchLength_eta, fillOutDegree_eta, fillCandidatePoolSize_eta]

theorem autoGenNSG_nprobe (size dim : Int) (cfg : Config) (v : Int)
    (h : cfg.nprobe = some v) :
    (autoGenNSG size dim cfg).nprobe = some v := by
  simp [autoGenNSG, fillNprobe_eta, fillKnng_eta, fillSearchLength_eta, fillOutDegree_eta, fillCandidatePoolSize_eta, h]

theorem autoGenNSG_knng (size dim : Int) (cfg : Config) (v : Int)
    (h : cfg.knng = some v) :
    (autoGenNSG size dim cfg).knng = some v := by
  simp [autoGenNSG, fillNprobe_eta, fillKnng_eta, fillSearchLength_eta, fillOutDegree_eta, fillCandidatePoolSize_eta, h]

theorem autoGenNSG_search_length (size dim : Int) (cfg : Config) (v : Int)
    (h : cfg.search_length = some v) :
    (autoGenNSG size dim cfg).search_length = some v := by
  simp [autoGenNSG, fillNprobe_eta, fillKnng_eta, fillSearchLength_eta, fillOutDegree_eta, fillCandidatePoolSize_eta, h]

theorem autoGenNSG_out_degree (size dim : Int) (cfg : Config) (v : Int)
    (h : cfg.out_degree = some v) :
    (autoGenNSG size dim cfg).out_degree = some v := by
  simp [autoGenNSG, fillNprobe_eta, fillKnng_eta, fillSearchLength_eta, fillOutDegree_eta, fillCandidatePoolSize_eta, h]

theorem autoGenNSG_candidate_pool_size (size dim : Int) (cfg : Config) (v : Int)
    (h : cfg.candidate_pool_size = some v) :
    (autoGenNSG size dim cfg).candidate_pool_size = some v := by
  simp [autoGenNSG, fillNprobe_eta, fillKnng_eta, fillSearchLength_eta, fillOutDegree_eta, fillCandidatePoolSize_eta, h]

theorem autoGenNSG_nlist (size dim : Int) (cfg : Config) :
    (autoGenNSG size dim cfg).nlist = some (cppIntCast ((size : ℚ) / 1000000 * 8192)) := by
  simp [autoGenNSG, fillNprobe_eta, fillKnng_eta, fillSearchLength_eta, fillOutDegree_eta, fillCandidatePoolSize_eta]

theorem threshold_eq : TYPICAL_COUNT / 16384 + 1 = (15881 : ℚ) / 256 := by
  norm_num [TYPICAL_COUNT]

theorem size_ge_of_above_threshold (size : Int)
    (h : ¬((size : ℚ) ≤ TYPICAL_COUNT / 16384 + 1)) : 63 ≤ size := by
  rw [threshold_eq] at h
  push_neg at h
  by_contra hlt
  push_neg at hlt
  have hle : size ≤ 62 := by omega
  have hq : (size : ℚ) ≤ 62 := by exact_mod_cast hle
  have : (62 : ℚ) < 15881 / 256 := by norm_num
  linarith

theorem baseline_nlist_pos (size : Int)
    (h : ¬((size : ℚ) ≤ TYPICAL_COUNT / 16384 + 1)) :
    1 ≤ cppIntCast ((size : ℚ) / TYPICAL_COUNT * 16384) := by
  have h63 : (63 : ℚ) ≤ (size : ℚ) := by exact_mod_cast size_ge_of_above_threshold size h
  have hq : (1 : ℚ) ≤ (size : ℚ) / TYPICAL_COUNT * 16384 := by
    rw [TYPICAL_COUNT]
    linarith
  rw [cppIntCast, if_pos (by linarith)]
  exact Int.le_floor.mpr (by exact_mod_cast hq)

theorem autoGenBase_nlist_cases (size : Int) (cfg : Config) :
    (autoGenBase size cfg).nlist = cfg.nlist ∨
    ∃ v : Int, (autoGenBase size cfg).nlist = some v ∧ v ≠ 0 := by
  by_cases h1 : (size : ℚ) ≤ TYPICAL_COUNT / 16384 + 1
  · right
    refine ⟨1, ?_, by decide⟩
    simp only [autoGenBase, if_pos h1]
    split_ifs <;> rfl
  · by_cases h2 : cppIntCast ((size : ℚ) / TYPICAL_COUNT) * (cfg.nlist.getD 0) = 0
    · right
      refine ⟨cppIntCast ((size : ℚ) / TYPICAL_COUNT * 16384), ?_, ?_⟩
      · simp only [autoGenBase, if_neg h1, if_pos h2]
        split_ifs <;> rfl
      · have hpos := baseline_nlist_pos size h1
        omega
    · left
      simp only [autoGenBase, if_neg h1, if_neg h2]
      split_ifs <;> rfl

/-- C1: Persistence round-trip. For every index handle whose family the
factory can construct (no handle is ever tagged INVALID) and whose non-empty
BinarySet has name and data lengths that fit the 8-byte size_t / int64_t
length fields the writer emits, writing the handle with write_index and
reading the file back with read_index yields a handle whose re-serialized
BinarySet has exactly the same segment names, in the same order, with
byte-identical contents and lengths, as the original handle's BinarySet. -/
theorem persistence_roundtrip (h : VecIndexHandle)
    (hty : h.GetType ≠ IndexType.INVALID)
    (_hne : h.Serialize ≠ [])
    (hbound : ∀ s ∈ h.Serialize, s.name.length < 2 ^ 64 ∧ s.data.length < 2 ^ 63) :
    ∃ h2 : VecIndexHandle, read_index (writeIndexBytes h) = .handle h2 ∧
      h2.Serialize = h.Serialize ∧ h2.GetType = h.GetType :=
  ⟨h, read_index_writeIndexBytes h hty hbound, rfl, rfl⟩

/-- Witness for persistence_roundtrip: a concrete two-segment handle
round-trips. -/
theorem persistence_roundtrip_witness :
    ∃ h2 : VecIndexHandle,
      read_index (writeIndexBytes ⟨.FAISS_IVFFLAT_CPU, [⟨[99], [1, 2]⟩, ⟨[100], [3]⟩]⟩)
        = .handle h2 ∧
      h2.Serialize = [⟨[99], [1, 2]⟩, ⟨[100], [3]⟩] ∧
      h2.GetType = .FAISS_IVFFLAT_CPU :=
  persistence_roundtrip ⟨.FAISS_IVFFLAT_CPU, [⟨[99], [1, 2]⟩, ⟨[100], [3]⟩]⟩
    (by decide) (by decide) (by decide)

/-- C2 counterexample: read_index has no CorruptFile and no UnknownFamily
failure path. A 12-byte file (valid tag 1, then a declared name length of
100 with no bytes after it) drives the reader past end-of-file: the outcome
is an unchecked short read on unspecified data, not an error return. A
4-byte file whose tag 99 matches no IndexFamily makes LoadVecIndex call
Load through the null pointer GetVecIndexFactory returned: a null-pointer
dereference, not an error return. The claimed error returns do not exist in
read_index, whose only return values are nullptr and a handle. -/
theorem read_index_no_clean_failure :
    read_index (toLEBytes 4 1 ++ toLEBytes 8 100) = .unspecified ∧
    read_index (toLEBytes 4 99) = .nullDereference [] :=
  ⟨by decide, by decide⟩

/-- C2 (amended): read_index returns the empty result (nullptr) exactly for
a zero-length file; a declared name or data length that would read past
end-of-file is not detected (the fstream reads fail or fill buffers
partially and the loop continues on unspecified data - no CorruptFile
error), an unknown leading tag causes a null-pointer dereference inside
LoadVecIndex (no UnknownFamily error), and every well-formed file written
from a factory-constructible family is read back into a populated handle. -/
theorem read_index_failure_modes :
    (∀ file : List Nat, read_index file = .nullResult ↔ file = []) ∧
    (∀ h : VecIndexHandle, h.GetType ≠ IndexType.INVALID →
      (∀ s ∈ h.Serialize, s.name.length < 2 ^ 64 ∧ s.data.length < 2 ^ 63) →
      read_index (writeIndexBytes h) = .handle h) :=
  ⟨read_index_eq_nullResult, fun h hty hb => read_index_writeIndexBytes h hty hb⟩

/-- Witness for read_index_failure_modes: the empty file gives the empty
result, and a concrete one-segment file loads back. -/
theorem read_index_failure_modes_witness :
    read_index [] = .nullResult ∧
    read_index (writeIndexBytes ⟨.FAISS_IDMAP, [⟨[110], [7]⟩]⟩)
      = .handle ⟨.FAISS_IDMAP, [⟨[110], [7]⟩]⟩ :=
  ⟨(read_index_failure_modes.1 []).mpr rfl,
   read_index_failure_modes.2 ⟨.FAISS_IDMAP, [⟨[110], [7]⟩]⟩ (by decide) (by decide)⟩

/-- C3 counterexample: with the non-graph flat-cluster family, row count
1000 (far above the tiny-dataset threshold 1000000/16384 + 1) and a
caller-supplied nlist of 5, AutoGenParams overwrites nlist with
int(1000 / 1000000.0 * 16384) = 16 - a third overwrite besides the two the
claim allows, because the condition int(size/TYPICAL_COUNT)*nlist == 0 also
fires whenever the truncated size/TYPICAL_COUNT factor is zero. -/
theorem autogen_overwrites_supplied_nlist :
    ¬((1000 : ℚ) ≤ TYPICAL_COUNT / 16384 + 1) ∧
    (AutoGenParams .FAISS_IVFFLAT_CPU 1000 { nlist := some 5 }).map Config.nlist
      = some (some 16) := by
  constructor
  · norm_num [TYPICAL_COUNT]
  · norm_num [AutoGenParams, autoGenBase, cppIntCast, TYPICAL_COUNT]

/-- C3 (amended): AutoGenParams never overwrites a caller-supplied value,
with exactly three exceptions, all on nlist: the unconditional graph-family
recomputation, the tiny-dataset guard forcing nlist = 1 when
size <= 1000000/16384 + 1, and the baseline recomputation, whose condition
int(size/TYPICAL_COUNT) * nlist == 0 also fires on a caller-supplied
non-zero nlist whenever the truncated size/TYPICAL_COUNT factor is zero
(row count below one million). For a non-graph family, a row count above
the tiny threshold and int(size/TYPICAL_COUNT) * nlist nonzero, a supplied
nlist is kept; every other key is only ever filled when absent. -/
theorem autogen_fill_only (type : IndexType) (size : Int) (cfg out : Config)
    (hout : AutoGenParams type size cfg = some out) :
    out.dim = cfg.dim ∧
    (∀ v, cfg.nprobe = some v → out.nprobe = some v) ∧
    (∀ v, cfg.nbits = some v → out.nbits = some v) ∧
    (∀ v, cfg.gpu_id = some v → out.gpu_id = some v) ∧
    (∀ v, cfg.metric_type = some v → out.metric_type = some v) ∧
    (∀ v, cfg.knng = some v → out.knng = some v) ∧
    (∀ v, cfg.search_length = some v → out.search_length = some v) ∧
    (∀ v, cfg.out_degree = some v → out.out_degree = some v) ∧
    (∀ v, cfg.candidate_pool_size = some v → out.candidate_pool_size = some v) ∧
    (∀ v, cfg.nlist = some v → type ≠ .NSG_MIX →
      ¬((size : ℚ) ≤ TYPICAL_COUNT / 16384 + 1) →
      cppIntCast ((size : ℚ) / TYPICAL_COUNT) * v ≠ 0 →
      out.nlist = some v) := by
  have base_keep : ∀ v, cfg.nlist = some v →
      ¬((size : ℚ) ≤ TYPICAL_COUNT / 16384 + 1) →
      cppIntCast ((size : ℚ) / TYPICAL_COUNT) * v ≠ 0 →
      (autoGenBase size cfg).nlist = some v := by
    intro v hv h1 h2
    exact autoGenBase_nlist_kept size cfg v hv h1 (by simpa [hv] using h2)
  cases type with
  | NSG_MIX =>
    simp only [AutoGenParams] at hout
    cases hdim : (autoGenBase size cfg).dim with
    | none => rw [hdim] at hout; exact absurd hout (by simp)
    | some d =>
      rw [hdim] at hout
      simp only [Option.some.injEq] at hout
      subst hout
      refine ⟨?_, ?_, ?_, ?_, ?_, ?_, ?_, ?_, ?_, ?_⟩
      · rw [autoGenNSG_dim, autoGenBase_dim]
      · intro v hv
        exact autoGenNSG_nprobe _ _ _ v (by rw [autoGenBase_nprobe]; exact hv)
      · intro v hv
        rw [autoGenNSG_nbits, autoGenBase_nbits]; exact hv
      · intro v hv
        rw [autoGenNSG_gpu_id]; exact autoGenBase_gpu_id size cfg v hv
      · intro v hv
        rw [autoGenNSG_metric_type]; exact autoGenBase_metric_type size cfg v hv
      · intro v hv
        exact autoGenNSG_knng _ _ _ v (by rw [autoGenBase_knng]; exact hv)
      · intro v hv
        exact autoGenNSG_search_length _ _ _ v (by rw [autoGenBase_search_length]; exact hv)
      · intro v hv
        exact autoGenNSG_out_degree _ _ _ v (by rw [autoGenBase_out_degree]; exact hv)
      · intro v hv
        exact autoGenNSG_candidate_pool_size _ _ _ v
          (by rw [autoGenBase_candidate_pool_size]; exact hv)
      · intro v _ hne
        exact absurd rfl hne
  | FAISS_IVFSQ8_MIX =>
    simp only [AutoGenParams, Option.some.injEq] at hout
    subst hout
    rw [fillNbits_eta]
    refine ⟨?_, ?_, ?_, ?_, ?_, ?_, ?_, ?_, ?_, ?_⟩
    · simp [autoGenBase_dim]
    · intro v hv; simp [autoGenBase_nprobe, hv]
    · intro v hv; simp [autoGenBase_nbits, hv]
    · intro v hv; simp [autoGenBase_gpu_id size cfg v hv]
    · intro v hv; simp [autoGenBase_metric_type size cfg v hv]
    · intro v hv; simp [autoGenBase_knng, hv]
    · intro v hv; simp [autoGenBase_search_length, hv]
    · intro v hv; simp [autoGenBase_out_degree, hv]
    · intro v hv; simp [autoGenBase_candidate_pool_size, hv]
    · intro v hv _ h1 h2; simp [base_keep v hv h1 h2]
  | INVALID =>
    simp only [AutoGenParams, Option.some.injEq] at hout
    subst hout
    exact ⟨autoGenBase_dim size cfg,
      fun v hv => by rw [autoGenBase_nprobe]; exact hv,
      fun v hv => by rw [autoGenBase_nbits]; exact hv,
      fun v hv => autoGenBase_gpu_id size cfg v hv,
      fun v hv => autoGenBase_metric_type size cfg v hv,
      fun v hv => by rw [autoGenBase_knng]; exact hv,
      fun v hv => by rw [autoGenBase_search_length]; exact hv,
      fun v hv => by rw [autoGenBase_out_degree]; exact hv,
      fun v hv => by rw [autoGenBase_candidate_pool_size]; exact hv,
      fun v hv _ h1 h2 => base_keep v hv h1 h2⟩
  | FAISS_IDMAP =>
    simp only [AutoGenParams, Option.some.injEq] at hout
    subst hout
    exact ⟨autoGenBase_dim size cfg,
      fun v hv => by rw [autoGenBase_nprobe]; exact hv,
      fun v hv => by rw [autoGenBase_nbits]; exact hv,
      fun v hv => autoGenBase_gpu_id size cfg v hv,
      fun v hv => autoGenBase_metric_type size cfg v hv,
      fun v hv => by rw [autoGenBase_knng]; exact hv,
      fun v hv => by rw [autoGenBase_search_length]; exact hv,
      fun v hv => by rw [autoGenBase_out_degree]; exact hv,
      fun v hv => by rw [autoGenBase_candidate_pool_size]; exact hv,
      fun v hv _ h1 h2 => base_keep v hv h1 h2⟩
  | FAISS_IVFFLAT_CPU =>
    simp only [AutoGenParams, Option.some.injEq] at hout
    subst hout
    exact ⟨autoGenBase_dim size cfg,
      fun v hv => by rw [autoGenBase_nprobe]; exact hv,
      fun v hv => by rw [autoGenBase_nbits]; exact hv,
      fun v hv => autoGenBase_gpu_id size cfg v hv,
      fun v hv => autoGenBase_metric_type size cfg v hv,
      fun v hv => by rw [autoGenBase_knng]; exact hv,
      fun v hv => by rw [autoGenBase_search_length]; exact hv,
      fun v hv => by rw [autoGenBase_out_degree]; exact hv,
      fun v hv => by rw [autoGenBase_candidate_pool_size]; exact hv,
      fun v hv _ h1 h2 => base_keep v hv h1 h2⟩
  | FAISS_IVFFLAT_GPU =>
    simp only [AutoGenParams, Option.some.injEq] at hout
    subst hout
    exact ⟨autoGenBase_dim size cfg,
      fun v hv => by rw [autoGenBase_nprobe]; exact hv,
      fun v hv => by rw [autoGenBase_nbits]; exact hv,
      fun v hv => autoGenBase_gpu_id size cfg v hv,
      fun v hv => autoGenBase_metric_type size cfg v hv,
      fun v hv => by rw [autoGenBase_knng]; exact hv,
      fun v hv => by rw [autoGenBase_search_length]; exact hv,
      fun v hv => by rw [autoGenBase_out_degree]; exact hv,
      fun v hv => by rw [autoGenBase_candidate_pool_size]; exact hv,
      fun v hv _ h1 h2 => base_keep v hv h1 h2⟩
  | FAISS_IVFFLAT_MIX =>
    simp only [AutoGenParams, Option.some.injEq] at hout
    subst hout
    exact ⟨autoGenBase_dim size cfg,
      fun v hv => by rw [autoGenBase_nprobe]; exact hv,
      fun v hv => by rw [autoGenBase_nbits]; exact hv,
      fun v hv => autoGenBase_gpu_id size cfg v hv,
      fun v hv => autoGenBase_metric_type size cfg v hv,
      fun v hv => by rw [autoGenBase_knng]; exact hv,
      fun v hv => by rw [autoGenBase_search_length]; exact hv,
      fun v hv => by rw [autoGenBase_out_degree]; exact hv,
      fun v hv => by rw [autoGenBase_candidate_pool_size]; exact hv,
      fun v hv _ h1 h2 => base_keep v hv h1 h2⟩
  | FAISS_IVFPQ_CPU =>
    simp only [AutoGenParams, Option.some.injEq] at hout
    subst hout
    exact ⟨autoGenBase_dim size cfg,
      fun v hv => by rw [autoGenBase_nprobe]; exact hv,
      fun v hv => by rw [autoGenBase_nbits]; exact hv,
      fun v hv => autoGenBase_gpu_id size cfg v hv,
      fun v hv => autoGenBase_metric_type size cfg v hv,
      fun v hv => by rw [autoGenBase_knng]; exact hv,
      fun v hv => by rw [autoGenBase_search_length]; exact hv,
      fun v hv => by rw [autoGenBase_out_degree]; exact hv,
      fun v hv => by rw [autoGenBase_candidate_pool_size]; exact hv,
      fun v hv _ h1 h2 => base_keep v hv h1 h2⟩
  | FAISS_IVFPQ_GPU =>
    simp only [AutoGenParams, Option.some.injEq] at hout
    subst hout
    exact ⟨autoGenBase_dim size cfg,
      fun v hv => by rw [autoGenBase_nprobe]; exact hv,
      fun v hv => by rw [autoGenBase_nbits]; exact hv,
      fun v hv => autoGenBase_gpu_id size cfg v hv,
      fun v hv => autoGenBase_metric_type size cfg v hv,
      fun v hv => by rw [autoGenBase_knng]; exact hv,
      fun v hv => by rw [autoGenBase_search_length]; exact hv,
      fun v hv => by rw [autoGenBase_out_degree]; exact hv,
      fun v hv => by rw [autoGenBase_candidate_pool_size]; exact hv,
      fun v hv _ h1 h2 => base_keep v hv h1 h2⟩
  | SPTAG_KDT_RNT_CPU =>
    simp only [AutoGenParams, Option.some.injEq] at hout
    subst hout
    exact ⟨autoGenBase_dim size cfg,
      fun v hv => by rw [autoGenBase_nprobe]; exact hv,
      fun v hv => by rw [autoGenBase_nbits]; exact hv,
      fun v hv => autoGenBase_gpu_id size cfg v hv,
      fun v hv => autoGenBase_metric_type size cfg v hv,
      fun v hv => by rw [autoGenBase_knng]; exact hv,
      fun v hv => by rw [autoGenBase_search_length]; exact hv,
      fun v hv => by rw [autoGenBase_out_degree]; exact hv,
      fun v hv => by rw [autoGenBase_candidate_pool_size]; exact hv,
      fun v hv _ h1 h2 => base_keep v hv h1 h2⟩
  | FAISS_IVFSQ8_CPU =>
    simp only [AutoGenParams, Option.some.injEq] at hout
    subst hout
    exact ⟨autoGenBase_dim size cfg,
      fun v hv => by rw [autoGenBase_nprobe]; exact hv,
      fun v hv => by rw [autoGenBase_nbits]; exact hv,
      fun v hv => autoGenBase_gpu_id size cfg v hv,
      fun v hv => autoGenBase_metric_type size cfg v hv,
      fun v hv => by rw [autoGenBase_knng]; exact hv,
      fun v hv => by rw [autoGenBase_search_length]; exact hv,
      fun v hv => by rw [autoGenBase_out_degree]; exact hv,
      fun v hv => by rw [autoGenBase_candidate_pool_size]; exact hv,
      fun v hv _ h1 h2 => base_keep v hv h1 h2⟩
  | FAISS_IVFSQ8_GPU =>
    simp only [AutoGenParams, Option.some.injEq] at hout
    subst hout
    exact ⟨autoGenBase_dim size cfg,
      fun v hv => by rw [autoGenBase_nprobe]; exact hv,
      fun v hv => by rw [autoGenBase_nbits]; exact hv,
      fun v hv => autoGenBase_gpu_id size cfg v hv,
      fun v hv => autoGenBase_metric_type size cfg v hv,
      fun v hv => by rw [autoGenBase_knng]; exact hv,
      fun v hv => by rw [autoGenBase_search_length]; exact hv,
      fun v hv => by rw [autoGenBase_out_degree]; exact hv,
      fun v hv => by rw [autoGenBase_candidate_pool_size]; exact hv,
      fun v hv _ h1 h2 => base_keep v hv h1 h2⟩

/-- Witness for autogen_fill_only: family FAISS_IVFFLAT_CPU, row count
2000000, supplied nlist 7 and nprobe 11 - the supplied nlist survives. -/
theorem autogen_fill_only_witness :
    (AutoGenParams .FAISS_IVFFLAT_CPU 2000000 { nlist := some 7, nprobe := some 11 }).map
      Config.nlist = some (some 7) := by
  have hout : AutoGenParams .FAISS_IVFFLAT_CPU 2000000 { nlist := some 7, nprobe := some 11 }
      = some { nlist := some 7, nprobe := some 11, gpu_id := some 0,
               metric_type := some "L2" } := by
    norm_num [AutoGenParams, autoGenBase, cppIntCast, TYPICAL_COUNT]
  have hkeep := (autogen_fill_only _ _ _ _ hout).2.2.2.2.2.2.2.2.2 7 rfl (by decide)
    (by norm_num [TYPICAL_COUNT]) (by norm_num [cppIntCast, TYPICAL_COUNT])
  rw [hout]
  simp [hkeep]

/-- C4 counterexample: in the claimed scenario (graph family, row count
500, dim = 512) the code computes nlist = int(500 / 1000000.0 * 8192)
= int(4.096) = 4, not the claimed 0 (500/1e6*8192 is 4.096, whose floor is
4, not 0). -/
theorem nsg_scenario_nlist_not_zero :
    (AutoGenParams .NSG_MIX 500 { dim := some 512 }).map Config.nlist ≠ some (some 0) ∧
    (AutoGenParams .NSG_MIX 500 { dim := some 512 }).map Config.nlist = some (some 4) := by
  have h : (AutoGenParams .NSG_MIX 500 { dim := some 512 }).map Config.nlist
      = some (some 4) := by
    norm_num [AutoGenParams, autoGenBase, autoGenNSG, fillNprobe, fillKnng, fillSearchLength,
      fillOutDegree, fillCandidatePoolSize, cppIntCast, cppRound, TYPICAL_COUNT]
  exact ⟨by rw [h]; simp, h⟩

/-- C4 (amended): the graph-family scenario with row count 500 and a
configuration holding only dim = 512 yields scale factor round(512/128) = 4
(capped at 4), hence nprobe 46, knng 500, search_length 60, out_degree 70,
candidate_pool_size 600; nlist is recomputed to int(500/1e6*8192) = 4 (not
0), and the unconditional defaults gpu_id = 0 and metric_type = "L2" are
also filled. -/
theorem nsg_scenario :
    AutoGenParams .NSG_MIX 500 { dim := some 512 } =
      some { dim := some 512, nlist := some 4, gpu_id := some 0,
             metric_type := some "L2", nprobe := some 46, knng := some 500,
             search_length := some 60, out_degree := some 70,
             candidate_pool_size := some 600 } := by
  norm_num [AutoGenParams, autoGenBase, autoGenNSG, fillNprobe, fillKnng, fillSearchLength,
    fillOutDegree, fillCandidatePoolSize, cppIntCast, cppRound, TYPICAL_COUNT]

/-- C5 counterexample: for the graph family with row count 100 (dim 128,
no nlist supplied) AutoGenParams assigns nlist = int(100/1e6*8192)
= int(0.8192) = 0: nlist is auto-assigned to zero. -/
theorem nsg_autogen_assigns_zero_nlist :
    ({ dim := some 128 } : Config).nlist = none ∧
    (AutoGenParams .NSG_MIX 100 { dim := some 128 }).map Config.nlist
      = some (some 0) := by
  refine ⟨rfl, ?_⟩
  norm_num [AutoGenParams, autoGenBase, autoGenNSG, fillNprobe, fillKnng, fillSearchLength,
    fillOutDegree, fillCandidatePoolSize, cppIntCast, cppRound, TYPICAL_COUNT]

/-- C5 (amended): outside the graph family AutoGenParams never assigns zero
to nlist - it either leaves the caller's nlist entry untouched or writes a
non-zero value (1 under the tiny-dataset guard, at least 1 from the
baseline recomputation). The graph family's unconditional recomputation has
no zero-guard and writes int(size/1e6*8192), which is 0 for any row count
up to 122. -/
theorem nlist_never_auto_zero_outside_graph (type : IndexType) (size : Int)
    (cfg out : Config) (hout : AutoGenParams type size cfg = some out)
    (hng : type ≠ .NSG_MIX) :
    out.nlist = cfg.nlist ∨ ∃ v : Int, out.nlist = some v ∧ v ≠ 0 := by
  cases type <;>
    first
    | exact absurd rfl hng
    | (simp only [AutoGenParams, Option.some.injEq] at hout
       subst hout
       rw [fillNbits_eta]
       simpa using autoGenBase_nlist_cases size cfg)
    | (simp only [AutoGenParams, Option.some.injEq] at hout
       subst hout
       exact autoGenBase_nlist_cases size cfg)

/-- Witness for nlist_never_auto_zero_outside_graph: the flat family at row
count 10 hits the tiny-dataset guard and ends with nlist = 1, not 0. -/
theorem nlist_never_auto_zero_outside_graph_witness :
    ({ nlist := some 1, gpu_id := some 0, metric_type := some "L2" } : Config).nlist
        = ({} : Config).nlist ∨
    ∃ v : Int,
      ({ nlist := some 1, gpu_id := some 0, metric_type := some "L2" } : Config).nlist
          = some v ∧ v ≠ 0 := by
  have hout : AutoGenParams .FAISS_IDMAP 10 {}
      = some { nlist := some 1, gpu_id := some 0, metric_type := some "L2" } := by
    norm_num [AutoGenParams, autoGenBase, TYPICAL_COUNT]
  exact nlist_never_auto_zero_outside_graph _ _ _ _ hout (by decide)

/-- C6: write_index's error classification. NO_SPACE is returned exactly
when a generic std::exception's message contains the space-exhaustion
indicator; the distinct UNEXPECTED code exactly when the backend's internal
KnowhereException is raised (even if its message mentions lack of space,
since that catch clause comes first); the generic error code (the spec's
SerializationError) exactly for every other std::exception; and SUCCESS
when no exception is raised - every attempt outcome maps to exactly one
ErrorCode, so no exception escapes to the caller. -/
theorem write_index_error_classification :
    (∀ a, write_index a = .KNOWHERE_NO_SPACE ↔
      ∃ m, a = .stdExc m ∧ noSpaceIndicator <:+: m) ∧
    (∀ a, write_index a = .KNOWHERE_UNEXPECTED_ERROR ↔ ∃ m, a = .knowhereExc m) ∧
    (∀ a, write_index a = .KNOWHERE_ERROR ↔
      ∃ m, a = .stdExc m ∧ ¬(noSpaceIndicator <:+: m)) ∧
    write_index .completed = .KNOWHERE_SUCCESS := by
  refine ⟨?_, ?_, ?_, rfl⟩ <;> intro a <;> rcases a with _ | m | m <;>
    simp only [write_index] <;> first | (split_ifs <;> simp_all) | simp_all

/-- C7: the validator clamp. For each of the three GPU clustered families,
a supplied non-zero nprobe above the build-time ceiling is replaced by
exactly the ceiling (and nothing else in the configuration changes); an
absent, zero, or not-above-ceiling nprobe leaves the configuration
unchanged; every other family passes through unchanged. Stated for an
arbitrary ceiling, covering both build-time values 2048 and 1024. -/
theorem parameter_validation_clamp (ceiling : Int) (cfg : Config) (t : IndexType) :
    ((t = .FAISS_IVFSQ8_GPU ∨ t = .FAISS_IVFFLAT_GPU ∨ t = .FAISS_IVFPQ_GPU) →
      (∀ v, cfg.nprobe = some v → v ≠ 0 → v > ceiling →
        ParameterValidation ceiling t cfg = { cfg with nprobe := some ceiling }) ∧
      (cfg.nprobe = none → ParameterValidation ceiling t cfg = cfg) ∧
      (∀ v, cfg.nprobe = some v → (v = 0 ∨ v ≤ ceiling) →
        ParameterValidation ceiling t cfg = cfg)) ∧
    (t ≠ .FAISS_IVFSQ8_GPU → t ≠ .FAISS_IVFFLAT_GPU → t ≠ .FAISS_IVFPQ_GPU →
      ParameterValidation ceiling t cfg = cfg) := by
  constructor
  · rintro (rfl | rfl | rfl) <;>
      exact ⟨fun v hv hv0 hvc => by
          simp only [ParameterValidation, hv, Option.getD_some]
          rw [if_pos hv0, if_pos hvc],
        fun hv => by simp [ParameterValidation, hv],
        fun v hv hvle => by
          rcases hvle with rfl | hle
          · simp [ParameterValidation, hv]
          · simp only [ParameterValidation, hv, Option.getD_some]
            split_ifs <;> first | rfl | omega⟩
  · intro h1 h2 h3
    cases t <;> first | rfl | exact absurd rfl h1 | exact absurd rfl h2 | exact absurd rfl h3

/-- Witness for parameter_validation_clamp: on the GPU flat-cluster family
with nprobe 5000 and ceiling 2048, the validator clamps nprobe to 2048. -/
theorem parameter_validation_clamp_witness :
    ParameterValidation 2048 .FAISS_IVFFLAT_GPU { nprobe := some 5000 }
      = { nprobe := some 2048 } :=
  ((parameter_validation_clamp 2048 { nprobe := some 5000 } .FAISS_IVFFLAT_GPU).1
    (Or.inr (Or.inl rfl))).1 5000 rfl (by decide) (by decide)

/-- C8: the device mapping involution. ConvertToCpuIndexType after
ConvertToGpuIndexType agrees with ConvertToCpuIndexType alone on every
IndexType, and both conversions are the identity on every family outside
the flat-cluster and scalar-quantized groups. -/
theorem device_mapping_involution :
    (∀ t, ConvertToCpuIndexType (ConvertToGpuIndexType t) = ConvertToCpuIndexType t) ∧
    (∀ t, t.inDeviceMappedGroup = false →
      ConvertToCpuIndexType t = t ∧ ConvertToGpuIndexType t = t) := by
  constructor
  · intro t
    cases t <;> rfl
  · intro t h
    cases t <;> first | exact ⟨rfl, rfl⟩ | exact absurd h (by decide)

/-- Witness for device_mapping_involution: the flat brute-force family is
outside both groups and is fixed by both conversions. -/
theorem device_mapping_involution_witness :
    ConvertToCpuIndexType .FAISS_IDMAP = .FAISS_IDMAP ∧
    ConvertToGpuIndexType .FAISS_IDMAP = .FAISS_IDMAP :=
  device_mapping_involution.2 .FAISS_IDMAP rfl

/-- C9 counterexample: GetVecIndexFactory for FAISS_IVFFLAT_MIX constructs
its GPUIVF backend with the literal device 0 (source line 106), ignoring a
supplied gpu_id of 3. -/
theorem factory_ivfflat_mix_ignores_gpu_id :
    deviceOrdinal (GetVecIndexFactory .FAISS_IVFFLAT_MIX { gpu_id := some 3 }) ≠ some 3 ∧
    deviceOrdinal (GetVecIndexFactory .FAISS_IVFFLAT_MIX { gpu_id := some 3 }) = some 0 :=
  ⟨by decide, rfl⟩

/-- C9 (amended): of the six families whose concrete backend takes a device
ordinal, five (the three GPU families, FAISS_IVFSQ8_MIX and NSG_MIX) are
constructed with the ordinal read from the configuration's gpu_id key,
defaulting to 0 when absent; FAISS_IVFFLAT_MIX alone is constructed with
the hard-coded device 0 regardless of gpu_id. -/
theorem factory_device_ordinal (cfg : Config) :
    deviceOrdinal (GetVecIndexFactory .FAISS_IVFFLAT_GPU cfg) = some (cfg.gpu_id.getD 0) ∧
    deviceOrdinal (GetVecIndexFactory .FAISS_IVFPQ_GPU cfg) = some (cfg.gpu_id.getD 0) ∧
    deviceOrdinal (GetVecIndexFactory .FAISS_IVFSQ8_GPU cfg) = some (cfg.gpu_id.getD 0) ∧
    deviceOrdinal (GetVecIndexFactory .FAISS_IVFSQ8_MIX cfg) = some (cfg.gpu_id.getD 0) ∧
    deviceOrdinal (GetVecIndexFactory .NSG_MIX cfg) = some (cfg.gpu_id.getD 0) ∧
    deviceOrdinal (GetVecIndexFactory .FAISS_IVFFLAT_MIX cfg) = some 0 :=
  ⟨rfl, rfl, rfl, rfl, rfl, rfl⟩

/-- C10: the graph-family branch of AutoGenParams reads dim before and
without any defaulting: for the graph family the call is well-defined
exactly when the input configuration contains dim (for every other family
it is always well-defined), and no execution path ever writes dim - unlike
every other key the function touches, dim has no fill-if-absent default. -/
theorem autogen_dim_precondition :
    (∀ size cfg, AutoGenParams .NSG_MIX size cfg = none ↔ cfg.dim = none) ∧
    (∀ type size cfg, type ≠ .NSG_MIX → AutoGenParams type size cfg ≠ none) ∧
    (∀ type size cfg out, AutoGenParams type size cfg = some out → out.dim = cfg.dim) := by
  refine ⟨?_, ?_, ?_⟩
  · intro size cfg
    simp only [AutoGenParams]
    rw [show (autoGenBase size cfg).dim = cfg.dim from autoGenBase_dim size cfg]
    cases cfg.dim <;> simp
  · intro type size cfg hng
    cases type <;> first | exact absurd rfl hng | simp [AutoGenParams]
  · intro type size cfg out hout
    cases type with
    | NSG_MIX =>
      simp only [AutoGenParams] at hout
      cases hdim : (autoGenBase size cfg).dim with
      | none => rw [hdim] at hout; exact absurd hout (by simp)
      | some d =>
        rw [hdim] at hout
        simp only [Option.some.injEq] at hout
        subst hout
        rw [autoGenNSG_dim, autoGenBase_dim]
    | FAISS_IVFSQ8_MIX =>
      simp only [AutoGenParams, Option.some.injEq] at hout
      subst hout
      rw [fillNbits_eta]
      simp [autoGenBase_dim]
    | INVALID =>
      simp only [AutoGenParams, Option.some.injEq] at hout
      subst hout
      exact autoGenBase_dim size cfg
    | FAISS_IDMAP =>
      simp only [AutoGenParams, Option.some.injEq] at hout
      subst hout
      exact autoGenBase_dim size cfg
    | FAISS_IVFFLAT_CPU =>
      simp only [AutoGenParams, Option.some.injEq] at hout
      subst hout
      exact autoGenBase_dim size cfg
    | FAISS_IVFFLAT_GPU =>
      simp only [AutoGenParams, Option.some.injEq] at hout
      subst hout
      exact autoGenBase_dim size cfg
    | FAISS_IVFFLAT_MIX =>
      simp only [AutoGenParams, Option.some.injEq] at hout
      subst hout
      exact autoGenBase_dim size cfg
    | FAISS_IVFPQ_CPU =>
      simp only [AutoGenParams, Option.some.injEq] at hout
      subst hout
      exact autoGenBase_dim size cfg
    | FAISS_IVFPQ_GPU =>
      simp only [AutoGenParams, Option.some.injEq] at hout
      subst hout
      exact autoGenBase_dim size cfg
    | SPTAG_KDT_RNT_CPU =>
      simp only [AutoGenParams, Option.some.injEq] at hout
      subst hout
      exact autoGenBase_dim size cfg
    | FAISS_IVFSQ8_CPU =>
      simp only [AutoGenParams, Option.some.injEq] at hout
      subst hout
      exact autoGenBase_dim size cfg
    | FAISS_IVFSQ8_GPU =>
      simp only [AutoGenParams, Option.some.injEq] at hout
      subst hout
      exact autoGenBase_dim size cfg

/-- Witness for autogen_dim_precondition: with no dim in the configuration
the graph-family call is undefined, while the flat family's call is
defined. -/
theorem autogen_dim_precondition_witness :
    AutoGenParams .NSG_MIX 500 ({} : Config) = none ∧
    AutoGenParams .FAISS_IDMAP 500 ({} : Config) ≠ none :=
  ⟨(autogen_dim_precondition.1 500 {}).mpr rfl,
   autogen_dim_precondition.2.1 .FAISS_IDMAP 500 {} (by decide)⟩
